import Mathlib

/-!
Shallow embedding of `cloudsplaining/scan/managed_policy_detail.py`: the
`ManagedPolicy` and `ManagedPolicyDetails` classes, their construction,
exclusion computation, default-version resolution, attachment
cross-reference, and severity-gated risk-report assembly.

Python dicts are embedded as association lists (insertion order preserved),
optional dict lookups (`.get`) as `Option`, raised exceptions as
`Except ScanError`. The policy-risk classifier (`PolicyDocument` from
`cloudsplaining.scan.policy_document`) is an external collaborator consumed
as an opaque risk-findings provider, so a raw policy-document value is
modelled by the typed finding lists the classifier produces for it.
-/

/-- A single privilege-escalation finding; the source accesses the dict key
`finding["type"]` in `getFindingLinks`. -/
structure Finding where
  type : String
  deriving DecidableEq

/-- The resolved risk document of a policy. The classifier itself is out of
scope (an external collaborator); this structure holds the finding lists the
source reads off a `PolicyDocument` object: `allows_privilege_escalation`,
`allows_data_exfiltration_actions`,
`permissions_management_without_constraints`, `service_wildcard`,
`credentials_exposure` and `infrastructure_modification`. -/
structure PolicyDocument where
  allows_privilege_escalation : List Finding
  allows_data_exfiltration_actions : List String
  permissions_management_without_constraints : List String
  service_wildcard : List String
  credentials_exposure : List String
  infrastructure_modification : List String
  deriving DecidableEq

/-- One entry of a record's `PolicyVersionList`. `.get("IsDefaultVersion")`
may be absent (`none`); the raw `Document` body is modelled by its resolved
risk document (see `PolicyDocument`). -/
structure PolicyVersion where
  Document : PolicyDocument
  IsDefaultVersion : Option Bool
  deriving DecidableEq

/-- One principal's entry in the IAM inventory snapshot:
`{name, aws_managed_policies, customer_managed_policies}`. The two policy
collections are consulted only for membership of a policy id, so they are
modelled as lists of policy-id keys. -/
structure PrincipalEntry where
  name : String
  aws_managed_policies : List String
  customer_managed_policies : List String
  deriving DecidableEq

/-- The IAM inventory snapshot `{"groups": {...}, "users": {...}, "roles":
{...}}`; each inner dict maps a principal id to its entry, in insertion
order. -/
structure IamData where
  groups : List (String × PrincipalEntry)
  users : List (String × PrincipalEntry)
  roles : List (String × PrincipalEntry)
  deriving DecidableEq

/-- The empty inventory snapshot both classes start from. -/
def emptyIamData : IamData := ⟨[], [], []⟩

/-- One raw policy record. `PolicyName`, `PolicyId`, `Arn` and `Path` are
accessed with `[]` (required); the metadata fields are accessed with `.get`
(optional); `PolicyVersionList` is accessed with `.get(..., [])`. -/
structure PolicyDetailRecord where
  PolicyName : String
  PolicyId : String
  Arn : String
  Path : String
  DefaultVersionId : Option String
  AttachmentCount : Option Int
  PermissionsBoundaryUsageCount : Option Int
  IsAttachable : Option Bool
  CreateDate : Option String
  UpdateDate : Option String
  PolicyVersionList : Option (List PolicyVersion)
  deriving DecidableEq

/-- The `Exclusions` collaborator from `cloudsplaining.shared.exclusions`
(not under src/). The source only calls its `is_policy_excluded(identifier)`
capability, so it is embedded as that predicate; the `isinstance` guard in
both constructors is enforced by the type. -/
structure Exclusions where
  is_policy_excluded : String → Bool

/-- An `Exclusions` object with an empty rule set: no identifier matches. -/
def noExclusions : Exclusions := ⟨fun _ => false⟩

/-- Errors raised by the embedded code: `NotFoundException` from
`get_policy_detail`, and the fatal `Exception` from `_policy_document`. -/
inductive ScanError where
  | notFound (msg : String)
  | fatal (msg : String)
  deriving DecidableEq

/-- Python `str.startswith`, evaluated over the underlying character
list. -/
def strStartsWith (s pre : String) : Bool :=
  pre.data.isPrefixOf s.data

/-- Python `str.lower`, evaluated over the underlying character list. -/
def strToLower (s : String) : String :=
  ⟨s.data.map Char.toLower⟩

/-- Modelled from the spec: `is_name_excluded(name, globPattern)` of the
`ExclusionMatcher` collaborator (`cloudsplaining.shared.exclusions`, not
under src/), which glob-matches a path against a pattern. The source only
passes patterns ending in `*` (`"aws-service-role*"` and
`"/aws-service-role*"`), for which glob matching is prefix matching; other
patterns match by equality. -/
def is_name_excluded (name pat : String) : Bool :=
  if pat.data.getLast? == some '*' then strStartsWith name ⟨pat.data.dropLast⟩
  else name == pat

/-- Modelled from the spec: `is_aws_managed(arn)` from
`cloudsplaining.shared.utils` (not under src/). Per spec 4.2.2 a policy is
AWS-managed iff its arn matches the fixed AWS-managed policy arn shape
`arn:aws:iam::aws:policy/...`. -/
def is_aws_managed (arn : String) : Bool :=
  strStartsWith arn "arn:aws:iam::aws:policy/"

/-- Modelled from the spec: `ISSUE_SEVERITY` from
`cloudsplaining.shared.constants` (not under src/): each risk category's
fixed severity label. Per the spec the severity filter is "the set of risk
categories whose findings should be populated", matched case-insensitively
against these labels, and filtering by `"privilegeescalation"` populates
exactly the PrivilegeEscalation category, so each category's label is its
own name in lowercase. -/
def ISSUE_SEVERITY (category : String) : String :=
  if category == "PrivilegeEscalation" then "privilegeescalation"
  else if category == "DataExfiltration" then "dataexfiltration"
  else if category == "ResourceExposure" then "resourceexposure"
  else if category == "ServiceWildcard" then "servicewildcard"
  else if category == "CredentialsExposure" then "credentialsexposure"
  else if category == "InfrastructureModification" then "infrastructuremodification"
  else ""

/-- Modelled from the spec: `RISK_DEFINITION` from
`cloudsplaining.shared.constants` (not under src/): the fixed static
description text per risk category. The exact wording lives outside src/;
each category carries its own fixed description string. -/
def RISK_DEFINITION (category : String) : String :=
  "Description of the " ++ category ++ " risk category"

/-- The constructed `ManagedPolicy` object: raw record kept for
safekeeping, extracted identity and metadata attributes, the inventory
snapshot (initially empty), the exclusion flag computed once at
construction, the retained version list, the resolved policy document and
the severity filter. -/
structure ManagedPolicy where
  policy_detail : PolicyDetailRecord
  flag_conditional_statements : Bool
  flag_resource_arn_statements : Bool
  policy_name : String
  policy_id : String
  arn : String
  path : String
  default_version_id : Option String
  attachment_count : Option Int
  permissions_boundary_usage_count : Option Int
  is_attachable : Option Bool
  create_date : Option String
  update_date : Option String
  iam_data : IamData
  exclusions : Exclusions
  is_excluded : Bool
  policy_version_list : List PolicyVersion
  policy_document : PolicyDocument
  severity : List String

/-- `ManagedPolicy._is_excluded`: the policy is excluded iff its name, id
or path matches the exclusion rules, or its path glob-matches
`"/aws-service-role*"`. -/
def ManagedPolicy.isExcludedCheck (exclusions : Exclusions)
    (policy_name policy_id path : String) : Bool :=
  exclusions.is_policy_excluded policy_name
    || exclusions.is_policy_excluded policy_id
    || exclusions.is_policy_excluded path
    || is_name_excluded path "/aws-service-role*"

/-- `ManagedPolicy._policy_document`: scan the version list for the first
entry whose `IsDefaultVersion` is `True` and build the policy document from
its `Document` body; raise a fatal error when no version is flagged
default. -/
def ManagedPolicy.resolveDocument (versions : List PolicyVersion)
    (arn : String) : Except ScanError PolicyDocument :=
  match versions.find? (fun v => v.IsDefaultVersion == some true) with
  | some v => .ok v.Document
  | none =>
    .error (.fatal ("Managed Policy ARN " ++ arn ++
      " has no default Policy Document version"))

/-- `ManagedPolicy.__init__`: extract identity and metadata (optional
fields via `.get`), compute the exclusion flag, take the version list with
default `[]`, resolve the default-version document (propagating its fatal
error), and store the severity filter (`[]` when `None`). -/
def ManagedPolicy.construct (policy_detail : PolicyDetailRecord)
    (exclusions : Exclusions)
    (flag_conditional_statements flag_resource_arn_statements : Bool)
    (severity : Option (List String)) : Except ScanError ManagedPolicy :=
  let policy_version_list := policy_detail.PolicyVersionList.getD []
  match ManagedPolicy.resolveDocument policy_version_list policy_detail.Arn with
  | .error e => .error e
  | .ok doc =>
    .ok {
      policy_detail := policy_detail
      flag_conditional_statements := flag_conditional_statements
      flag_resource_arn_statements := flag_resource_arn_statements
      policy_name := policy_detail.PolicyName
      policy_id := policy_detail.PolicyId
      arn := policy_detail.Arn
      path := policy_detail.Path
      default_version_id := policy_detail.DefaultVersionId
      attachment_count := policy_detail.AttachmentCount
      permissions_boundary_usage_count := policy_detail.PermissionsBoundaryUsageCount
      is_attachable := policy_detail.IsAttachable
      create_date := policy_detail.CreateDate
      update_date := policy_detail.UpdateDate
      iam_data := emptyIamData
      exclusions := exclusions
      is_excluded := ManagedPolicy.isExcludedCheck exclusions
        policy_detail.PolicyName policy_detail.PolicyId policy_detail.Path
      policy_version_list := policy_version_list
      policy_document := doc
      severity := severity.getD [] }

/-- `ManagedPolicy.set_iam_data`: replace the inventory snapshot. -/
def ManagedPolicy.set_iam_data (p : ManagedPolicy) (iam_data : IamData) :
    ManagedPolicy :=
  { p with iam_data := iam_data }

/-- `ManagedPolicy.managed_by`: `"AWS"` when the arn matches the
AWS-managed shape, otherwise `"Customer"`. -/
def ManagedPolicy.managed_by (p : ManagedPolicy) : String :=
  if is_aws_managed p.arn then "AWS" else "Customer"

/-- `ManagedPolicy.getFindingLinks`: map each finding's type to the fixed
documentation URL with the finding type substituted in. The python builds a
dict keyed by the type, modelled as the association list in iteration
order. -/
def ManagedPolicy.getFindingLinks (findings : List Finding) :
    List (String × String) :=
  findings.map (fun f =>
    (f.type,
     "https://cloudsplaining.readthedocs.io/en/latest/glossary/privilege-escalation/#"
       ++ f.type))

/-- Inner loop of `ManagedPolicy.getAttached` over one principal category:
walk the principals in inventory order; on each iteration the source first
returns `{}` when the policy is excluded (modelled as `none`), otherwise
consults the category's `aws_managed_policies` or
`customer_managed_policies` key according to `managed_by` and appends the
principal's display name when this policy's id is a member. -/
def ManagedPolicy.attachNames (p : ManagedPolicy)
    (principals : List (String × PrincipalEntry)) : Option (List String) :=
  match principals with
  | [] => some []
  | (_, entry) :: rest =>
    if p.is_excluded then none
    else
      let managedPolicies :=
        if p.managed_by == "AWS" then entry.aws_managed_policies
        else if p.managed_by == "Customer" then entry.customer_managed_policies
        else []
      match ManagedPolicy.attachNames p rest with
      | none => none
      | some tail =>
        some (if p.policy_id ∈ managedPolicies then entry.name :: tail else tail)

/-- `ManagedPolicy.getAttached`: iterate the categories `roles`, `groups`,
`users` over the inventory snapshot; the returned python dict is modelled
as an association list, so the early `return {}` taken inside the principal
loop of an excluded policy yields `[]`, and the normal path yields the
three category lists under their keys. -/
def ManagedPolicy.getAttached (p : ManagedPolicy) :
    List (String × List String) :=
  match ManagedPolicy.attachNames p p.iam_data.roles,
        ManagedPolicy.attachNames p p.iam_data.groups,
        ManagedPolicy.attachNames p p.iam_data.users with
  | some r, some g, some u => [("roles", r), ("groups", g), ("users", u)]
  | _, _, _ => []

/-- The severity gate repeated for each category in `json` and
`json_large`: `ISSUE_SEVERITY[category] in [x.lower() for x in
self.severity] or not self.severity`. -/
def severityGate (severity : List String) (label : String) : Bool :=
  (severity.map strToLower).contains label || severity.isEmpty

/-- One category's block in the report: fixed severity label, static
description, severity-gated findings. -/
structure CategoryReport where
  severity : String
  description : String
  findings : List String
  deriving DecidableEq

/-- The PrivilegeEscalation block additionally carries the links mapping. -/
structure PrivilegeEscalationReport where
  severity : String
  description : String
  findings : List Finding
  links : List (String × String)
  deriving DecidableEq

/-- The per-policy report assembled by `ManagedPolicy.json` /
`ManagedPolicy.json_large`; `InfrastructureModification` is present only in
the large variant. -/
structure PolicyJson where
  PolicyName : String
  PolicyId : String
  Arn : String
  Path : String
  DefaultVersionId : Option String
  AttachmentCount : Option Int
  AttachedTo : List (String × List String)
  IsAttachable : Option Bool
  CreateDate : Option String
  UpdateDate : Option String
  PolicyVersionList : List PolicyVersion
  PrivilegeEscalation : PrivilegeEscalationReport
  DataExfiltration : CategoryReport
  ResourceExposure : CategoryReport
  ServiceWildcard : CategoryReport
  CredentialsExposure : CategoryReport
  InfrastructureModification : Option CategoryReport
  is_excluded : Bool
  deriving DecidableEq

/-- `ManagedPolicy.json`: the high-risk report with the five baseline
categories; each category's findings come from the resolved document when
the severity gate passes and are `[]` otherwise, while severity label and
description are always emitted; PrivilegeEscalation also carries
`getFindingLinks` of the same gated findings list. -/
def ManagedPolicy.json (p : ManagedPolicy) : PolicyJson :=
  { PolicyName := p.policy_name
    PolicyId := p.policy_id
    Arn := p.arn
    Path := p.path
    DefaultVersionId := p.default_version_id
    AttachmentCount := p.attachment_count
    AttachedTo := p.getAttached
    IsAttachable := p.is_attachable
    CreateDate := p.create_date
    UpdateDate := p.update_date
    PolicyVersionList := p.policy_version_list
    PrivilegeEscalation :=
      { severity := ISSUE_SEVERITY "PrivilegeEscalation"
        description := RISK_DEFINITION "PrivilegeEscalation"
        findings :=
          if severityGate p.severity (ISSUE_SEVERITY "PrivilegeEscalation")
          then p.policy_document.allows_privilege_escalation else []
        links := ManagedPolicy.getFindingLinks
          (if severityGate p.severity (ISSUE_SEVERITY "PrivilegeEscalation")
           then p.policy_document.allows_privilege_escalation else []) }
    DataExfiltration :=
      { severity := ISSUE_SEVERITY "DataExfiltration"
        description := RISK_DEFINITION "DataExfiltration"
        findings :=
          if severityGate p.severity (ISSUE_SEVERITY "DataExfiltration")
          then p.policy_document.allows_data_exfiltration_actions else [] }
    ResourceExposure :=
      { severity := ISSUE_SEVERITY "ResourceExposure"
        description := RISK_DEFINITION "ResourceExposure"
        findings :=
          if severityGate p.severity (ISSUE_SEVERITY "ResourceExposure")
          then p.policy_document.permissions_management_without_constraints
          else [] }
    ServiceWildcard :=
      { severity := ISSUE_SEVERITY "ServiceWildcard"
        description := RISK_DEFINITION "ServiceWildcard"
        findings :=
          if severityGate p.severity (ISSUE_SEVERITY "ServiceWildcard")
          then p.policy_document.service_wildcard else [] }
    CredentialsExposure :=
      { severity := ISSUE_SEVERITY "CredentialsExposure"
        description := RISK_DEFINITION "CredentialsExposure"
        findings :=
          if severityGate p.severity (ISSUE_SEVERITY "CredentialsExposure")
          then p.policy_document.credentials_exposure else [] }
    InfrastructureModification := none
    is_excluded := p.is_excluded }

/-- `ManagedPolicy.json_large`: same as `json` plus the
InfrastructureModification category. -/
def ManagedPolicy.json_large (p : ManagedPolicy) : PolicyJson :=
  { p.json with
    InfrastructureModification := some
      { severity := ISSUE_SEVERITY "InfrastructureModification"
        description := RISK_DEFINITION "InfrastructureModification"
        findings :=
          if severityGate p.severity (ISSUE_SEVERITY "InfrastructureModification")
          then p.policy_document.infrastructure_modification else [] } }

/-- The `ManagedPolicyDetails` collection: the retained `ManagedPolicy`
objects, the exclusions, the statement flags and the inventory snapshot. -/
structure ManagedPolicyDetails where
  policy_details : List ManagedPolicy
  exclusions : Exclusions
  flag_conditional_statements : Bool
  flag_resource_arn_statements : Bool
  iam_data : IamData

/-- The record-filtering loop of `ManagedPolicyDetails.__init__`: drop any
record whose path glob-matches `"aws-service-role*"` or
`"/aws-service-role*"`, then any whose name, id or path matches the
exclusion rules; surviving records become `ManagedPolicy` objects in input
order, and a fatal construction error aborts the whole loop. -/
def ManagedPolicyDetails.buildPolicies (records : List PolicyDetailRecord)
    (exclusions : Exclusions)
    (flag_conditional_statements flag_resource_arn_statements : Bool)
    (severity : Option (List String)) :
    Except ScanError (List ManagedPolicy) :=
  match records with
  | [] => .ok []
  | r :: rest =>
    if is_name_excluded r.Path "aws-service-role*"
        || is_name_excluded r.Path "/aws-service-role*" then
      ManagedPolicyDetails.buildPolicies rest exclusions
        flag_conditional_statements flag_resource_arn_statements severity
    else if exclusions.is_policy_excluded r.PolicyName
        || exclusions.is_policy_excluded r.PolicyId
        || exclusions.is_policy_excluded r.Path then
      ManagedPolicyDetails.buildPolicies rest exclusions
        flag_conditional_statements flag_resource_arn_statements severity
    else
      match ManagedPolicy.construct r exclusions
          flag_conditional_statements flag_resource_arn_statements severity with
      | .error e => .error e
      | .ok p =>
        (ManagedPolicyDetails.buildPolicies rest exclusions
          flag_conditional_statements flag_resource_arn_statements
          severity).map (fun ps => p :: ps)

/-- `ManagedPolicyDetails.__init__`: filter and construct the retained
policies (the `isinstance` guard on `exclusions` is enforced by the type)
and start from the empty inventory snapshot. -/
def ManagedPolicyDetails.construct (policy_details : List PolicyDetailRecord)
    (exclusions : Exclusions)
    (flag_conditional_statements flag_resource_arn_statements : Bool)
    (severity : Option (List String)) :
    Except ScanError ManagedPolicyDetails :=
  (ManagedPolicyDetails.buildPolicies policy_details exclusions
      flag_conditional_statements flag_resource_arn_statements severity).map
    (fun ps =>
      { policy_details := ps
        exclusions := exclusions
        flag_conditional_statements := flag_conditional_statements
        flag_resource_arn_statements := flag_resource_arn_statements
        iam_data := emptyIamData })

/-- `ManagedPolicyDetails.get_policy_detail`: linear scan of the retained
policies for the given arn; `NotFoundException` when none matches. -/
def ManagedPolicyDetails.get_policy_detail (d : ManagedPolicyDetails)
    (arn : String) : Except ScanError ManagedPolicy :=
  match d.policy_details.find? (fun p => p.arn == arn) with
  | some p => .ok p
  | none => .error (.notFound ("Managed Policy ARN " ++ arn ++ " not found."))

/-- `ManagedPolicyDetails.all_infrastructure_modification_actions`:
accumulate every retained policy's infrastructure-modification actions in a
set, then return them sorted. -/
def ManagedPolicyDetails.all_infrastructure_modification_actions
    (d : ManagedPolicyDetails) : List String :=
  (d.policy_details.foldl
      (fun acc p =>
        acc ∪ p.policy_document.infrastructure_modification.toFinset)
      (∅ : Finset String)).sort (· ≤ ·)

/-- `ManagedPolicyDetails.json`: dict from policy id to the policy's
report, in retained order. -/
def ManagedPolicyDetails.json (d : ManagedPolicyDetails) :
    List (String × PolicyJson) :=
  d.policy_details.map (fun p => (p.policy_id, p.json))

/-- `ManagedPolicyDetails.json_large`: dict from policy id to the policy's
large report, in retained order. -/
def ManagedPolicyDetails.json_large (d : ManagedPolicyDetails) :
    List (String × PolicyJson) :=
  d.policy_details.map (fun p => (p.policy_id, p.json_large))

/-- `ManagedPolicyDetails.json_large_aws_managed`: the large reports of the
retained policies whose `managed_by` is `"AWS"`. -/
def ManagedPolicyDetails.json_large_aws_managed (d : ManagedPolicyDetails) :
    List (String × PolicyJson) :=
  (d.policy_details.filter (fun p => p.managed_by == "AWS")).map
    (fun p => (p.policy_id, p.json_large))

/-- `ManagedPolicyDetails.json_large_customer_managed`: the large reports
of the retained policies whose `managed_by` is `"Customer"`. -/
def ManagedPolicyDetails.json_large_customer_managed
    (d : ManagedPolicyDetails) : List (String × PolicyJson) :=
  (d.policy_details.filter (fun p => p.managed_by == "Customer")).map
    (fun p => (p.policy_id, p.json_large))

/-- `ManagedPolicyDetails.set_iam_data`: replace the collection's inventory
snapshot and push it to every retained policy. -/
def ManagedPolicyDetails.set_iam_data (d : ManagedPolicyDetails)
    (iam_data : IamData) : ManagedPolicyDetails :=
  { d with
    iam_data := iam_data
    policy_details := d.policy_details.map (fun p => p.set_iam_data iam_data) }

/-! Concrete fixtures used to instantiate the theorems below. -/

/-- A sample resolved risk document with one finding per category. -/
def docA : PolicyDocument :=
  { allows_privilege_escalation := [⟨"CreateAccessKey"⟩]
    allows_data_exfiltration_actions := ["s3:GetObject"]
    permissions_management_without_constraints := ["iam:PutRolePolicy"]
    service_wildcard := ["s3"]
    credentials_exposure := ["iam:CreateAccessKey"]
    infrastructure_modification := ["ec2:RunInstances", "iam:CreateUser"] }

/-- A second sample document, used as a stale non-default version body. -/
def docB : PolicyDocument := { docA with allows_data_exfiltration_actions := [] }

/-- A version entry flagged as the default version. -/
def versionDefault : PolicyVersion := ⟨docA, some true⟩

/-- A version entry not flagged default. -/
def versionOld : PolicyVersion := ⟨docB, some false⟩

/-- A well-formed customer-managed record with a default version. -/
def recGood : PolicyDetailRecord :=
  { PolicyName := "GoodPolicy"
    PolicyId := "ANPAGOOD"
    Arn := "arn:aws:iam::123456789012:policy/GoodPolicy"
    Path := "/"
    DefaultVersionId := some "v2"
    AttachmentCount := some 1
    PermissionsBoundaryUsageCount := some 0
    IsAttachable := some true
    CreateDate := some "2020-01-01"
    UpdateDate := some "2020-06-01"
    PolicyVersionList := some [versionOld, versionDefault] }

/-- `recGood` with every optional metadata field absent. -/
def recGoodNoMeta : PolicyDetailRecord :=
  { recGood with
    DefaultVersionId := none
    AttachmentCount := none
    PermissionsBoundaryUsageCount := none
    IsAttachable := none
    CreateDate := none
    UpdateDate := none }

/-- A record in which no version is flagged default. -/
def recNoDefault : PolicyDetailRecord :=
  { recGood with
    PolicyName := "NoDefault"
    PolicyId := "ANPANODEF"
    PolicyVersionList := some [versionOld, ⟨docA, none⟩] }

/-- A record whose path begins with `aws-service-role` without a leading
slash. -/
def recNoSlashServiceRole : PolicyDetailRecord :=
  { recGood with
    PolicyName := "NoSlashServiceRole"
    PolicyId := "ANPANOSLASH"
    Path := "aws-service-role/sub/" }

/-- A record whose path begins with `/aws-service-role/`. -/
def recSlashServiceRole : PolicyDetailRecord :=
  { recGood with
    PolicyName := "SlashServiceRole"
    PolicyId := "ANPASLASH"
    Path := "/aws-service-role/sub/" }

/-- An exclusion rule set matching exactly the name `"BadPolicy"`. -/
def exclMatchBad : Exclusions := ⟨fun s => s == "BadPolicy"⟩

/-- A record whose name matches `exclMatchBad`. -/
def recBad : PolicyDetailRecord :=
  { recGood with PolicyName := "BadPolicy", PolicyId := "ANPABAD" }

/-- An inventory snapshot holding a single role whose customer-managed
policy references include `recBad`'s policy id. -/
def inventoryOneRole : IamData :=
  { groups := []
    users := []
    roles := [("AROA1",
      { name := "role-one"
        aws_managed_policies := []
        customer_managed_policies := ["ANPABAD", "ANPAGOOD"] })] }

/-- A fallback `ManagedPolicy` value used only to extract the payload of a
successful construction. -/
def fallbackPolicy : ManagedPolicy :=
  { policy_detail := recGood
    flag_conditional_statements := false
    flag_resource_arn_statements := false
    policy_name := "fallback"
    policy_id := "fallback"
    arn := "fallback"
    path := "/"
    default_version_id := none
    attachment_count := none
    permissions_boundary_usage_count := none
    is_attachable := none
    create_date := none
    update_date := none
    iam_data := emptyIamData
    exclusions := noExclusions
    is_excluded := false
    policy_version_list := []
    policy_document := docA
    severity := [] }

/-- The `ManagedPolicy` constructed from `recGood` with no exclusions. -/
def goodPolicy : ManagedPolicy :=
  (ManagedPolicy.construct recGood noExclusions false false none).toOption.getD
    fallbackPolicy

/-- The `ManagedPolicy` constructed from `recSlashServiceRole` with no
exclusions. -/
def slashServiceRolePolicy : ManagedPolicy :=
  (ManagedPolicy.construct recSlashServiceRole noExclusions false false
    none).toOption.getD fallbackPolicy

/-- Exclusion flag and attachment result of the policy built from `recBad`
under `exclMatchBad`, after injecting the one-role inventory. -/
def excludedAttachProbe : Except ScanError (Bool × List (String × List String)) :=
  (ManagedPolicy.construct recBad exclMatchBad false false none).map
    (fun p =>
      let q := p.set_iam_data inventoryOneRole
      (q.is_excluded, q.getAttached))

/-- Exclusion flag of the policy built from `recNoSlashServiceRole` with an
empty rule set. -/
def noSlashExclusionProbe : Except ScanError Bool :=
  (ManagedPolicy.construct recNoSlashServiceRole noExclusions false false
    none).map (fun p => p.is_excluded)

/-- A directly given excluded policy with an empty inventory snapshot. -/
def excludedEmptyInventoryPolicy : ManagedPolicy :=
  { fallbackPolicy with policy_name := "ExcludedEmptyInv", is_excluded := true }

/-- A concrete policy whose severity filter is empty. -/
def sevEmptyPolicy : ManagedPolicy :=
  { fallbackPolicy with policy_name := "SevEmpty", severity := [] }

/-- A concrete policy whose severity filter is `["privilegeescalation"]`. -/
def sevPrivEscPolicy : ManagedPolicy :=
  { fallbackPolicy with
    policy_name := "SevPrivEsc"
    severity := ["privilegeescalation"] }

/-- A concrete policy whose severity filter is `["dataexfiltration"]`, so
its PrivilegeEscalation findings are suppressed. -/
def sevDataExfilPolicy : ManagedPolicy :=
  { fallbackPolicy with
    policy_name := "SevDataExfil"
    severity := ["dataexfiltration"] }

/-- A record with the six optional metadata fields replaced by the given
values. -/
def withOptionalMeta (r : PolicyDetailRecord) (dvi : Option String)
    (ac pbc : Option Int) (att : Option Bool) (cd ud : Option String) :
    PolicyDetailRecord :=
  { r with
    DefaultVersionId := dvi
    AttachmentCount := ac
    PermissionsBoundaryUsageCount := pbc
    IsAttachable := att
    CreateDate := cd
    UpdateDate := ud }

/-- A concrete AWS-managed policy (arn under `arn:aws:iam::aws:policy/`). -/
def awsManagedPolicyFixture : ManagedPolicy :=
  { fallbackPolicy with
    policy_name := "ReadOnlyAccess"
    policy_id := "ANPAAWS"
    arn := "arn:aws:iam::aws:policy/ReadOnlyAccess" }

/-- A concrete customer-managed policy. -/
def customerPolicyFixture : ManagedPolicy :=
  { fallbackPolicy with
    policy_name := "custom1"
    policy_id := "ANPACUST"
    arn := "arn:aws:iam::123456789012:policy/custom1" }

/-- A concrete collection holding one AWS-managed and one customer-managed
policy. -/
def collectionFixture : ManagedPolicyDetails :=
  { policy_details := [awsManagedPolicyFixture, customerPolicyFixture]
    exclusions := noExclusions
    flag_conditional_statements := false
    flag_resource_arn_statements := false
    iam_data := emptyIamData }

/-! Helper lemmas. -/

/-- For an excluded policy the inner attachment loop hits the early
`return {}` as soon as one principal exists in the category. -/
theorem attachNames_of_excluded (p : ManagedPolicy) (h : p.is_excluded = true)
    (l : List (String × PrincipalEntry)) :
    ManagedPolicy.attachNames p l = if l = [] then some [] else none := by
  cases l with
  | nil => simp [ManagedPolicy.attachNames]
  | cons a rest =>
    cases a
    simp [ManagedPolicy.attachNames, h]

/-! Claim theorems. -/

/-- C1 counterexample: a policy excluded by name, placed before a one-role
inventory snapshot, has `getAttached = {}` (the empty mapping) rather than
`{roles: [], groups: [], users: []}` as the claim states. -/
theorem C1_counterexample :
    excludedAttachProbe = .ok (true, []) ∧
    ([] : List (String × List String)) ≠
      [("roles", []), ("groups", []), ("users", [])] := by
  exact ⟨rfl, by decide⟩

/-- C1 (amended): for every `ManagedPolicy` whose exclusion flag is true,
`getAttached` reports no attachments: it is the empty mapping `{}` when the
inventory snapshot holds at least one principal in any category, and the
mapping `{roles: [], groups: [], users: []}` when the snapshot is empty. -/
theorem C1_excluded_attachments (p : ManagedPolicy)
    (h : p.is_excluded = true) :
    p.getAttached =
      if p.iam_data.roles = [] ∧ p.iam_data.groups = [] ∧ p.iam_data.users = []
      then [("roles", []), ("groups", []), ("users", [])]
      else [] := by
  rw [ManagedPolicy.getAttached,
    attachNames_of_excluded p h p.iam_data.roles,
    attachNames_of_excluded p h p.iam_data.groups,
    attachNames_of_excluded p h p.iam_data.users]
  by_cases h1 : p.iam_data.roles = [] <;>
    by_cases h2 : p.iam_data.groups = [] <;>
    by_cases h3 : p.iam_data.users = [] <;>
    simp [h1, h2, h3]

/-- C1 witness: the amended statement evaluated on a concrete excluded
policy with an empty inventory snapshot. -/
theorem C1_excluded_attachments_witness :
    excludedEmptyInventoryPolicy.getAttached =
      [("roles", []), ("groups", []), ("users", [])] := by
  have h := C1_excluded_attachments excludedEmptyInventoryPolicy rfl
  simpa using h

/-- C2 counterexample: a `ManagedPolicy` constructed from a record whose
path begins with `aws-service-role` without a leading slash, under an empty
rule set, has `is_excluded = false`, contradicting the claimed iff. -/
theorem C2_counterexample :
    noSlashExclusionProbe = .ok false ∧
    strStartsWith recNoSlashServiceRole.Path "aws-service-role" = true := by
  exact ⟨rfl, by decide⟩

/-- C2 (amended): a constructed `ManagedPolicy` has `is_excluded = true` iff
its name, id or path matches an exclusion rule or its path begins with
`/aws-service-role` (leading slash required) — an empty rule set still
excludes such a path; records whose path begins with `aws-service-role`
(with or without the leading slash) are instead dropped by the collection
constructor before any `ManagedPolicy` is built from them. -/
theorem C2_exclusion_iff (e : Exclusions) (r : PolicyDetailRecord)
    (f1 f2 : Bool) (sev : Option (List String)) :
    (∀ p, ManagedPolicy.construct r e f1 f2 sev = .ok p →
      (p.is_excluded = true ↔
        e.is_policy_excluded r.PolicyName = true ∨
        e.is_policy_excluded r.PolicyId = true ∨
        e.is_policy_excluded r.Path = true ∨
        strStartsWith r.Path "/aws-service-role" = true)) ∧
    ((strStartsWith r.Path "aws-service-role"
        || strStartsWith r.Path "/aws-service-role") = true →
      ∀ rest, ManagedPolicyDetails.buildPolicies (r :: rest) e f1 f2 sev =
        ManagedPolicyDetails.buildPolicies rest e f1 f2 sev) := by
  have h1 : ∀ path, is_name_excluded path "aws-service-role*" =
      strStartsWith path "aws-service-role" := fun _ => rfl
  have h2 : ∀ path, is_name_excluded path "/aws-service-role*" =
      strStartsWith path "/aws-service-role" := fun _ => rfl
  constructor
  · intro p hp
    rw [ManagedPolicy.construct] at hp
    cases hd : ManagedPolicy.resolveDocument (r.PolicyVersionList.getD [])
        r.Arn with
    | error err => rw [hd] at hp; exact absurd hp (by simp)
    | ok doc =>
      rw [hd] at hp
      injection hp with hp
      subst hp
      show ManagedPolicy.isExcludedCheck e r.PolicyName r.PolicyId r.Path =
        true ↔ _
      rw [ManagedPolicy.isExcludedCheck, h2 r.Path]
      simp [Bool.or_eq_true, or_assoc]
  · intro hpath rest
    rw [ManagedPolicyDetails.buildPolicies]
    have hskip : (is_name_excluded r.Path "aws-service-role*"
        || is_name_excluded r.Path "/aws-service-role*") = true := by
      rw [h1 r.Path, h2 r.Path]
      exact hpath
    simp [hskip]

/-- C2 witness: the amended statement evaluated on a record with path
`/aws-service-role/sub/` and the empty rule set (excluded), and on the
collection constructor dropping a no-slash service-role record. -/
theorem C2_exclusion_iff_witness :
    slashServiceRolePolicy.is_excluded = true ∧
    ManagedPolicyDetails.buildPolicies [recNoSlashServiceRole] noExclusions
      false false none = .ok [] := by
  constructor
  · exact ((C2_exclusion_iff noExclusions recSlashServiceRole false false
      none).1 slashServiceRolePolicy rfl).mpr
      (Or.inr (Or.inr (Or.inr (by decide))))
  · rw [(C2_exclusion_iff noExclusions recNoSlashServiceRole false false
      none).2 (by decide) []]
    rfl

/-- C3: with an empty severity filter every category's findings equal the
resolved document's unfiltered findings; with the filter
`["privilegeescalation"]` only the PrivilegeEscalation findings are
populated while every other category reports empty findings with its fixed
severity label and description text still present. -/
theorem C3_severity_filter (p : ManagedPolicy) :
    (p.severity = [] →
      p.json.PrivilegeEscalation.findings =
        p.policy_document.allows_privilege_escalation ∧
      p.json.DataExfiltration.findings =
        p.policy_document.allows_data_exfiltration_actions ∧
      p.json.ResourceExposure.findings =
        p.policy_document.permissions_management_without_constraints ∧
      p.json.ServiceWildcard.findings =
        p.policy_document.service_wildcard ∧
      p.json.CredentialsExposure.findings =
        p.policy_document.credentials_exposure ∧
      p.json_large.InfrastructureModification = some
        { severity := ISSUE_SEVERITY "InfrastructureModification"
          description := RISK_DEFINITION "InfrastructureModification"
          findings := p.policy_document.infrastructure_modification }) ∧
    (p.severity = ["privilegeescalation"] →
      p.json.PrivilegeEscalation.findings =
        p.policy_document.allows_privilege_escalation ∧
      p.json.PrivilegeEscalation.severity =
        ISSUE_SEVERITY "PrivilegeEscalation" ∧
      p.json.PrivilegeEscalation.description =
        RISK_DEFINITION "PrivilegeEscalation" ∧
      p.json.DataExfiltration = ⟨ISSUE_SEVERITY "DataExfiltration",
        RISK_DEFINITION "DataExfiltration", []⟩ ∧
      p.json.ResourceExposure = ⟨ISSUE_SEVERITY "ResourceExposure",
        RISK_DEFINITION "ResourceExposure", []⟩ ∧
      p.json.ServiceWildcard = ⟨ISSUE_SEVERITY "ServiceWildcard",
        RISK_DEFINITION "ServiceWildcard", []⟩ ∧
      p.json.CredentialsExposure = ⟨ISSUE_SEVERITY "CredentialsExposure",
        RISK_DEFINITION "CredentialsExposure", []⟩ ∧
      p.json_large.InfrastructureModification = some
        ⟨ISSUE_SEVERITY "InfrastructureModification",
         RISK_DEFINITION "InfrastructureModification", []⟩) := by
  constructor
  · intro h
    simp [ManagedPolicy.json, ManagedPolicy.json_large, severityGate, h]
  · intro h
    have g1 : severityGate ["privilegeescalation"]
        (ISSUE_SEVERITY "PrivilegeEscalation") = true := by decide
    have g2 : severityGate ["privilegeescalation"]
        (ISSUE_SEVERITY "DataExfiltration") = false := by decide
    have g3 : severityGate ["privilegeescalation"]
        (ISSUE_SEVERITY "ResourceExposure") = false := by decide
    have g4 : severityGate ["privilegeescalation"]
        (ISSUE_SEVERITY "ServiceWildcard") = false := by decide
    have g5 : severityGate ["privilegeescalation"]
        (ISSUE_SEVERITY "CredentialsExposure") = false := by decide
    have g6 : severityGate ["privilegeescalation"]
        (ISSUE_SEVERITY "InfrastructureModification") = false := by decide
    simp [ManagedPolicy.json, ManagedPolicy.json_large, h,
      g1, g2, g3, g4, g5, g6]

/-- C3 witness: the two filter settings evaluated on concrete policies over
the sample document. -/
theorem C3_severity_filter_witness :
    sevEmptyPolicy.json.DataExfiltration.findings = ["s3:GetObject"] ∧
    sevPrivEscPolicy.json.PrivilegeEscalation.findings =
      [⟨"CreateAccessKey"⟩] ∧
    sevPrivEscPolicy.json.DataExfiltration.findings = [] := by
  have h1 := (C3_severity_filter sevEmptyPolicy).1 rfl
  have h2 := (C3_severity_filter sevPrivEscPolicy).2 rfl
  refine ⟨h1.2.1.trans (by decide), h2.1.trans (by decide), ?_⟩
  exact (congrArg CategoryReport.findings h2.2.2.2.1).trans rfl

/-- C4: a constructed policy's resolved document is the default-flagged
version's document (the first such entry of the version list), and
construction from a record with no default-flagged version fails with a
fatal error. -/
theorem C4_default_version (r : PolicyDetailRecord) (e : Exclusions)
    (f1 f2 : Bool) (sev : Option (List String)) :
    (∀ p, ManagedPolicy.construct r e f1 f2 sev = .ok p →
      ∃ v, (r.PolicyVersionList.getD []).find?
          (fun w => w.IsDefaultVersion == some true) = some v ∧
        v ∈ r.PolicyVersionList.getD [] ∧
        v.IsDefaultVersion = some true ∧
        p.policy_document = v.Document) ∧
    ((∀ v ∈ r.PolicyVersionList.getD [], v.IsDefaultVersion ≠ some true) →
      ∃ msg, ManagedPolicy.construct r e f1 f2 sev =
        .error (ScanError.fatal msg)) := by
  constructor
  · intro p hp
    rw [ManagedPolicy.construct] at hp
    cases hd : ManagedPolicy.resolveDocument (r.PolicyVersionList.getD [])
        r.Arn with
    | error err => rw [hd] at hp; exact absurd hp (by simp)
    | ok doc =>
      rw [hd] at hp
      injection hp with hp
      rw [ManagedPolicy.resolveDocument] at hd
      cases hf : (r.PolicyVersionList.getD []).find?
          (fun w => w.IsDefaultVersion == some true) with
      | none => rw [hf] at hd; exact absurd hd (by simp)
      | some v =>
        rw [hf] at hd
        injection hd with hd
        refine ⟨v, rfl, List.mem_of_find?_eq_some hf, ?_, ?_⟩
        · have hv := List.find?_some hf
          simpa using hv
        · rw [← hp]
          exact hd.symm
  · intro h
    have hf : (r.PolicyVersionList.getD []).find?
        (fun w => w.IsDefaultVersion == some true) = none :=
      List.find?_eq_none.mpr (fun v hv => by simpa using h v hv)
    refine ⟨"Managed Policy ARN " ++ r.Arn ++
      " has no default Policy Document version", ?_⟩
    rw [ManagedPolicy.construct, ManagedPolicy.resolveDocument, hf]

/-- C4 witness: the default-version selection evaluated on a record with a
stale and a default version, and the fatal failure on a record with no
default-flagged version. -/
theorem C4_default_version_witness :
    goodPolicy.policy_document = versionDefault.Document ∧
    (ManagedPolicy.construct recNoDefault noExclusions false false
      none).toOption = none := by
  constructor
  · obtain ⟨v, hv, _, _, hdoc⟩ :=
      (C4_default_version recGood noExclusions false false none).1
        goodPolicy rfl
    have h2 : (recGood.PolicyVersionList.getD []).find?
        (fun w => w.IsDefaultVersion == some true) = some versionDefault := by
      decide
    rw [hv] at h2
    injection h2 with h2
    rw [hdoc, h2]
  · obtain ⟨msg, hm⟩ :=
      (C4_default_version recNoDefault noExclusions false false none).2
        (by decide)
    rw [hm]
    rfl

/-- C5: the PrivilegeEscalation block's links mapping sends each included
finding's type to the fixed documentation URL with the type substituted in,
in both report variants; when the severity filter suppresses the
PrivilegeEscalation findings the links mapping is empty. -/
theorem C5_privilege_escalation_links (p : ManagedPolicy) :
    (p.json.PrivilegeEscalation.links =
      p.json.PrivilegeEscalation.findings.map (fun f => (f.type,
        "https://cloudsplaining.readthedocs.io/en/latest/glossary/privilege-escalation/#"
          ++ f.type)) ∧
     p.json_large.PrivilegeEscalation.links =
      p.json_large.PrivilegeEscalation.findings.map (fun f => (f.type,
        "https://cloudsplaining.readthedocs.io/en/latest/glossary/privilege-escalation/#"
          ++ f.type))) ∧
    (severityGate p.severity (ISSUE_SEVERITY "PrivilegeEscalation") = false →
      p.json.PrivilegeEscalation.links = [] ∧
      p.json_large.PrivilegeEscalation.links = []) := by
  constructor
  · constructor <;>
      simp [ManagedPolicy.json, ManagedPolicy.json_large,
        ManagedPolicy.getFindingLinks]
  · intro h
    constructor <;>
      simp [ManagedPolicy.json, ManagedPolicy.json_large,
        ManagedPolicy.getFindingLinks, h]

/-- C5 witness: a severity filter of `["dataexfiltration"]` suppresses the
PrivilegeEscalation findings, and the links mapping is empty. -/
theorem C5_privilege_escalation_links_witness :
    sevDataExfilPolicy.json.PrivilegeEscalation.links = [] ∧
    sevDataExfilPolicy.json_large.PrivilegeEscalation.links = [] :=
  (C5_privilege_escalation_links sevDataExfilPolicy).2 (by decide)

/-- Membership in the set-accumulating fold of
`all_infrastructure_modification_actions`. -/
theorem mem_infra_foldl (l : List ManagedPolicy) (s : Finset String)
    (a : String) :
    a ∈ l.foldl
        (fun acc p =>
          acc ∪ p.policy_document.infrastructure_modification.toFinset) s ↔
      a ∈ s ∨ ∃ p, p ∈ l ∧
        a ∈ p.policy_document.infrastructure_modification := by
  induction l generalizing s with
  | nil => simp
  | cons q t ih =>
    rw [List.foldl_cons, ih]
    simp only [Finset.mem_union, List.mem_toFinset, List.mem_cons]
    constructor
    · rintro ((hs | hq) | ⟨p, hp, hm⟩)
      · exact Or.inl hs
      · exact Or.inr ⟨q, Or.inl rfl, hq⟩
      · exact Or.inr ⟨p, Or.inr hp, hm⟩
    · rintro (hs | ⟨p, (rfl | hp), hm⟩)
      · exact Or.inl (Or.inl hs)
      · exact Or.inl (Or.inr hm)
      · exact Or.inr ⟨p, hp, hm⟩

/-- C6: `all_infrastructure_modification_actions` is sorted ascending,
duplicate-free, and holds exactly the union of the retained policies'
infrastructure-modification actions. -/
theorem C6_infra_union (d : ManagedPolicyDetails) :
    List.Sorted (· ≤ ·) d.all_infrastructure_modification_actions ∧
    d.all_infrastructure_modification_actions.Nodup ∧
    ∀ a, a ∈ d.all_infrastructure_modification_actions ↔
      ∃ p, p ∈ d.policy_details ∧
        a ∈ p.policy_document.infrastructure_modification := by
  refine ⟨Finset.sort_sorted _ _, Finset.sort_nodup _ _, fun a => ?_⟩
  rw [ManagedPolicyDetails.all_infrastructure_modification_actions,
    Finset.mem_sort, mem_infra_foldl]
  simp

/-- Bridge between the string comparison in the origin filters and the arn
shape test. -/
theorem managed_by_beq_AWS (p : ManagedPolicy) :
    (p.managed_by == "AWS") = is_aws_managed p.arn := by
  rw [ManagedPolicy.managed_by]
  cases h : is_aws_managed p.arn <;> simp

/-- Bridge for the customer-managed filter. -/
theorem managed_by_beq_customer (p : ManagedPolicy) :
    (p.managed_by == "Customer") = !is_aws_managed p.arn := by
  rw [ManagedPolicy.managed_by]
  cases h : is_aws_managed p.arn <;> simp

/-- C7: the AWS-origin report map holds exactly the large reports of the
retained policies whose arn matches the AWS-managed shape, keyed by policy
id; the customer-origin map holds exactly those of the remaining retained
policies. -/
theorem C7_reports_by_origin (d : ManagedPolicyDetails) :
    (∀ pid rep, (pid, rep) ∈ d.json_large_aws_managed ↔
      ∃ p, p ∈ d.policy_details ∧ is_aws_managed p.arn = true ∧
        pid = p.policy_id ∧ rep = p.json_large) ∧
    (∀ pid rep, (pid, rep) ∈ d.json_large_customer_managed ↔
      ∃ p, p ∈ d.policy_details ∧ is_aws_managed p.arn = false ∧
        pid = p.policy_id ∧ rep = p.json_large) := by
  constructor
  · intro pid rep
    rw [ManagedPolicyDetails.json_large_aws_managed]
    simp only [List.mem_map, List.mem_filter, managed_by_beq_AWS,
      Prod.mk.injEq]
    constructor
    · rintro ⟨p, ⟨hp, haws⟩, hid, hrep⟩
      exact ⟨p, hp, haws, hid.symm, hrep.symm⟩
    · rintro ⟨p, hp, haws, hid, hrep⟩
      exact ⟨p, ⟨hp, haws⟩, hid.symm, hrep.symm⟩
  · intro pid rep
    rw [ManagedPolicyDetails.json_large_customer_managed]
    simp only [List.mem_map, List.mem_filter, managed_by_beq_customer,
      Bool.not_eq_eq_eq_not, Bool.not_true, Prod.mk.injEq]
    constructor
    · rintro ⟨p, ⟨hp, hcust⟩, hid, hrep⟩
      exact ⟨p, hp, by simpa using hcust, hid.symm, hrep.symm⟩
    · rintro ⟨p, hp, hcust, hid, hrep⟩
      exact ⟨p, ⟨hp, by simpa using hcust⟩, hid.symm, hrep.symm⟩

/-- Decomposition of a successful linear arn scan: the found policy is the
first match in retained order. -/
theorem find?_arn_decomp (arn : String) (l : List ManagedPolicy) :
    ∀ p, l.find? (fun q => q.arn == arn) = some p →
      p.arn = arn ∧ ∃ l1 l2, l = l1 ++ p :: l2 ∧ ∀ q ∈ l1, q.arn ≠ arn := by
  induction l with
  | nil => intro p h; simp at h
  | cons a t ih =>
    intro p h
    by_cases ha : a.arn = arn
    · rw [List.find?_cons_of_pos _ (by simpa using ha)] at h
      injection h with h
      subst h
      exact ⟨ha, [], t, rfl, by simp⟩
    · rw [List.find?_cons_of_neg _ (by simpa using ha)] at h
      obtain ⟨hp, l1, l2, hl, hq⟩ := ih p h
      refine ⟨hp, a :: l1, l2, by rw [hl]; rfl, ?_⟩
      intro q hq2
      rcases List.mem_cons.mp hq2 with rfl | hmem
      · exact ha
      · exact hq q hmem

/-- C8: `get_policy_detail` fails with the not-found error when no retained
policy has the requested arn, and returns the first match in retained order
when one exists (the call is a pure function of the collection, so repeated
calls return the same value). -/
theorem C8_lookup (d : ManagedPolicyDetails) (arn : String) :
    ((∀ p ∈ d.policy_details, p.arn ≠ arn) →
      d.get_policy_detail arn = .error (ScanError.notFound
        ("Managed Policy ARN " ++ arn ++ " not found."))) ∧
    (∀ p, d.policy_details.find? (fun q => q.arn == arn) = some p →
      d.get_policy_detail arn = .ok p ∧ p.arn = arn ∧
      ∃ l1 l2, d.policy_details = l1 ++ p :: l2 ∧ ∀ q ∈ l1, q.arn ≠ arn) := by
  constructor
  · intro h
    have hf : d.policy_details.find? (fun q => q.arn == arn) = none :=
      List.find?_eq_none.mpr (fun q hq => by simpa using h q hq)
    rw [ManagedPolicyDetails.get_policy_detail, hf]
  · intro p hp
    refine ⟨?_, find?_arn_decomp arn d.policy_details p hp⟩
    rw [ManagedPolicyDetails.get_policy_detail, hp]

/-- C8 witness: lookup evaluated on a concrete two-policy collection, for a
present and an absent arn. -/
theorem C8_lookup_witness :
    collectionFixture.get_policy_detail
      "arn:aws:iam::123456789012:policy/custom1" = .ok customerPolicyFixture ∧
    collectionFixture.get_policy_detail "arn:missing" =
      .error (ScanError.notFound
        ("Managed Policy ARN " ++ "arn:missing" ++ " not found.")) := by
  constructor
  · exact ((C8_lookup collectionFixture
      "arn:aws:iam::123456789012:policy/custom1").2 customerPolicyFixture
      rfl).1
  · exact (C8_lookup collectionFixture "arn:missing").1 (by decide)

/-- C9: constructing from a record with any values (including absent) for
the six optional metadata fields succeeds whenever a default-flagged
version exists, and each optional field is copied verbatim — an absent
field degrades to an absent attribute. -/
theorem C9_optional_metadata (r : PolicyDetailRecord) (e : Exclusions)
    (f1 f2 : Bool) (sev : Option (List String)) (dvi : Option String)
    (ac pbc : Option Int) (att : Option Bool) (cd ud : Option String)
    (v : PolicyVersion) (hv : v ∈ r.PolicyVersionList.getD [])
    (hdef : v.IsDefaultVersion = some true) :
    ∃ p, ManagedPolicy.construct (withOptionalMeta r dvi ac pbc att cd ud)
        e f1 f2 sev = .ok p ∧
      p.default_version_id = dvi ∧ p.attachment_count = ac ∧
      p.permissions_boundary_usage_count = pbc ∧ p.is_attachable = att ∧
      p.create_date = cd ∧ p.update_date = ud := by
  cases hf : (r.PolicyVersionList.getD []).find?
      (fun w => w.IsDefaultVersion == some true) with
  | none =>
    exact absurd hdef (by simpa using List.find?_eq_none.mp hf v hv)
  | some w =>
    have hres : ManagedPolicy.resolveDocument
        ((withOptionalMeta r dvi ac pbc att cd ud).PolicyVersionList.getD [])
        (withOptionalMeta r dvi ac pbc att cd ud).Arn = .ok w.Document := by
      rw [ManagedPolicy.resolveDocument]
      have heq : (withOptionalMeta r dvi ac pbc att cd
          ud).PolicyVersionList.getD [] = r.PolicyVersionList.getD [] := rfl
      rw [heq, hf]
    exact ⟨_, by rw [ManagedPolicy.construct, hres], rfl, rfl, rfl, rfl,
      rfl, rfl⟩

/-- C9 witness: construction from `recGood` with every optional metadata
field absent succeeds and the absent fields stay absent. -/
theorem C9_optional_metadata_witness :
    (ManagedPolicy.construct recGoodNoMeta noExclusions false false
      none).map (fun p => (p.default_version_id, p.attachment_count,
        p.permissions_boundary_usage_count, p.is_attachable,
        p.create_date, p.update_date)) =
      .ok (none, none, none, none, none, none) := by
  obtain ⟨p, hp, h1, h2, h3, h4, h5, h6⟩ :=
    C9_optional_metadata recGood noExclusions false false none none none
      none none none none versionDefault (by decide) rfl
  have hp' : ManagedPolicy.construct recGoodNoMeta noExclusions false false
      none = .ok p := hp
  rw [hp']
  simp [Except.map, h1, h2, h3, h4, h5, h6]

/-- C10: `set_iam_data` replaces the inventory snapshot on the collection
and on every retained policy, and changes nothing else: the exclusions,
flags, and the retained list (order, length, and every non-inventory field
of each member) are untouched; likewise the per-policy call changes only
the policy's own inventory snapshot. -/
theorem C10_set_iam_data_frame (d : ManagedPolicyDetails) (x : IamData) :
    (d.set_iam_data x).iam_data = x ∧
    (d.set_iam_data x).exclusions = d.exclusions ∧
    (d.set_iam_data x).flag_conditional_statements =
      d.flag_conditional_statements ∧
    (d.set_iam_data x).flag_resource_arn_statements =
      d.flag_resource_arn_statements ∧
    (d.set_iam_data x).policy_details =
      d.policy_details.map (fun p => { p with iam_data := x }) ∧
    ∀ p : ManagedPolicy,
      (p.set_iam_data x).iam_data = x ∧
      (p.set_iam_data x).policy_detail = p.policy_detail ∧
      (p.set_iam_data x).policy_name = p.policy_name ∧
      (p.set_iam_data x).policy_id = p.policy_id ∧
      (p.set_iam_data x).arn = p.arn ∧
      (p.set_iam_data x).path = p.path ∧
      (p.set_iam_data x).default_version_id = p.default_version_id ∧
      (p.set_iam_data x).attachment_count = p.attachment_count ∧
      (p.set_iam_data x).permissions_boundary_usage_count =
        p.permissions_boundary_usage_count ∧
      (p.set_iam_data x).is_attachable = p.is_attachable ∧
      (p.set_iam_data x).create_date = p.create_date ∧
      (p.set_iam_data x).update_date = p.update_date ∧
      (p.set_iam_data x).exclusions = p.exclusions ∧
      (p.set_iam_data x).is_excluded = p.is_excluded ∧
      (p.set_iam_data x).policy_version_list = p.policy_version_list ∧
      (p.set_iam_data x).policy_document = p.policy_document ∧
      (p.set_iam_data x).severity = p.severity ∧
      (p.set_iam_data x).flag_conditional_statements =
        p.flag_conditional_statements ∧
      (p.set_iam_data x).flag_resource_arn_statements =
        p.flag_resource_arn_statements :=
  ⟨rfl, rfl, rfl, rfl, rfl, fun _ =>
    ⟨rfl, rfl, rfl, rfl, rfl, rfl, rfl, rfl, rfl, rfl, rfl, rfl, rfl, rfl,
     rfl, rfl, rfl, rfl, rfl⟩⟩
